import Mathlib

/-!
# Verification of the rtmp-tee-server core

Shallow embedding of the repository's RTMP chunk codec, handshake check,
AMF0 codec and command dispatch, translated function-by-function from the
Go sources (`rtmp` package, `amf` package), together with theorems settling
the specification claims.

Conventions of the embedding:
* Wire bytes are modelled as `Nat` values (each produced byte is `< 256`).
* Go's `[]byte` is `List Nat`; a buffered reader is the list of bytes not
  yet consumed.
* Go runtime panics (index / slice out of range, failed type assertion,
  nil-pointer dereference) are modelled by the explicit outcome
  `Failure.panic`: every index and slice operation taken from the source
  goes through `idx` / `slice`, which perform exactly the bound check the
  Go runtime performs.
* `fmt.Errorf` / `errors.New` results are modelled by `Failure.err` with a
  kind tag per distinct source error message.
* Loops with a cursor are translated to fuel-based recursion.  Every loop
  body in the source advances its cursor by at least one byte, so the
  generous fuel chosen by the wrappers (cubic in the input length) is never
  exhausted on any run; `Failure.fuelGone` exists only to make the
  translation total and is distinct from every source outcome.
-/

namespace RtmpTee

/-- Error kinds, one per distinct error message in the Go sources. -/
inductive ErrKind where
  | numBytes        -- "number marker found without enough bytes for number."
  | boolBytes       -- "boolean marker found without enough bytes for boolean."
  | strSizeBytes    -- "string marker found without enough bytes for string size."
  | strBytes        -- "string marker and size forund without enough bytes for string."
  | objBytes        -- "object marker found without enough bytes for object."
  | unknownMarker (b : Nat) -- "unimplemented marker found: %v."
  | objStartMarker  -- "Object binary must start with 0x03 object start marker."
  | objEndMarker    -- "Object binary must end with 0x00 0x00 0x09 ..."
  | keySizeBytes    -- "message object does not have enough bytes for key size."
  | keyBytes        -- "message object does not have enough bytes for key."
  | keyTypeBytes    -- "message object does not have enough bytes for key type."
  | noObjEnd        -- "no object end found."
  | contiguousKeys  -- "AMF messages must have contiguous key indexs."
  | strTooLong      -- "string too long"
  | typeUnknown     -- "AMF type not recognized"
  | peekFailed      -- bufio Peek error (empty input)
  | shortRead       -- "read ... failed: expected %d len header, got: %d"
  | noPriorStrmId   -- "cannot read type N message header if no previous ... stream id"
  | noPriorTs       -- "... message timestamp"
  | noPriorLen      -- "... message length"
  | noPriorTypId    -- "... message type id"
  | noPriorTsD      -- "... message timestamp delta"
  | fmtTooLarge     -- "format larger than 2 bits"
  | csidTooLarge    -- "chunk stream id greater than max"
  | csidTooSmall    -- "chunk stream id less than min"
  | invalidFmt      -- "invalid fmt: %d"  (the writer's "unreachable" default)
  | invalidCsid     -- "invalid id: %d"   (the writer's "unreachable" default)
  | msgLenTooLarge  -- "message length too large"
  | strmIdNotZero   -- "message stream id must be 0 but was: %d"
  | csidNot2        -- "chunk stream id must be 2 but was: %d"
  | csidReserved    -- "chunk stream id 2 is reserved for protocol control"
  | badCsidForMsg   -- "Invalid chunk stream id: %d"
  | msgTypeUnknown  -- "msgType not recognized: %d"
  | amf0TooLarge    -- "AMF0 message too large"
  deriving DecidableEq, Repr

/-- Outcome of running a piece of translated Go code: a value, a returned
`error`, a runtime panic, or fuel exhaustion (a translation artifact that
no actual run reaches, see the file comment). -/
inductive Failure where
  | err (k : ErrKind)
  | panic
  | fuelGone
  deriving DecidableEq, Repr

/-- The translation monad: Go code that may return an error or panic. -/
abbrev M (α : Type) : Type := Except Failure α

/-- Go `b[i]` on a `[]byte`: the runtime bound check, then the element. -/
def idx (b : List Nat) (i : Nat) : M Nat :=
  match b[i]? with
  | some v => .ok v
  | none => .error .panic

/-- Go `b[lo:hi]` on a `[]byte`: the runtime check `lo ≤ hi ≤ len(b)`,
then the sub-slice. -/
def slice (b : List Nat) (lo hi : Nat) : M (List Nat) :=
  if lo ≤ hi ∧ hi ≤ b.length then .ok ((b.drop lo).take (hi - lo))
  else .error .panic

/-- Big-endian value of a byte list (`binary.BigEndian.UintNN`, also the
`append([]byte{0}, …)` 24-bit idiom). -/
def beVal (b : List Nat) : Nat :=
  b.foldl (fun acc x => acc * 256 + x) 0

/-- Big-endian 2-byte encoding (`binary.BigEndian.PutUint16`). -/
def be16 (n : Nat) : List Nat :=
  [n / 256 % 256, n % 256]

/-- Big-endian 4-byte encoding (`binary.BigEndian.PutUint32`). -/
def be32 (n : Nat) : List Nat :=
  [n / 16777216 % 256, n / 65536 % 256, n / 256 % 256, n % 256]

/-- Big-endian 8-byte encoding (`binary.BigEndian.PutUint64` of the
IEEE-754 bit pattern; numbers are carried as their 64-bit patterns). -/
def be64 (n : Nat) : List Nat :=
  [n / 72057594037927936 % 256, n / 281474976710656 % 256,
   n / 1099511627776 % 256, n / 4294967296 % 256,
   n / 16777216 % 256, n / 65536 % 256, n / 256 % 256, n % 256]

/-! ## Chunk basic header codec (`rtmp` package, receive side)

Translation of `conn.receiveChunkBasicHeader`.  The connection's buffered
reader is the list of bytes not yet consumed; the function returns the
parsed header and the remaining bytes. -/

/-- `chunkHeaderType`/format and chunk stream id, as in `chunkBasicHeader`. -/
structure chunkBasicHeader where
  ChunkMessageHeaderFormat : Nat
  ChunkStreamId : Nat
  deriving DecidableEq, Repr

/-- The basic-header length selected by the low 6 bits of the first byte
(`switch basicHeaderType[0] &^ 0xC0`). -/
def basicHeaderLenOf (b0 : Nat) : Nat :=
  match b0 &&& 0x3F with
  | 0x00 => 2
  | 0x01 => 3
  | _ => 1

/-- `conn.receiveChunkBasicHeader`: peek one byte, pick the 1/2/3-byte
form from the low 6 bits, read that many bytes, and compute the format
and chunk stream id exactly as the source does. -/
def receiveChunkBasicHeader (input : List Nat) : M (chunkBasicHeader × List Nat) := do
  -- basicHeaderType, err := c.bufr.Peek(1)
  let b0 ← match input[0]? with
    | some v => Except.ok v
    | none => Except.error (.err .peekFailed)
  let basicHeaderLen := basicHeaderLenOf b0
  -- io.ReadFull(c.bufr, basicHeader); error when fewer bytes are available
  if input.length < basicHeaderLen then
    Except.error (.err .shortRead)
  else do
    let basicHeader := input.take basicHeaderLen
    -- chunkHeaderFormat := (basicHeader[0] & 0xC0) >> 6
    let chunkHeaderFormat := (b0 &&& 0xC0) >>> 6
    -- basicHeader[0] = basicHeader[0] &^ 0xC0
    let h0 := b0 &&& 0x3F
    let streamId ←
      match basicHeaderLen with
      | 1 => Except.ok h0
      | 2 => do
        let h1 ← idx basicHeader 1
        Except.ok (h1 + 64)
      | _ => do
        let h2 ← idx basicHeader 2
        Except.ok (h2 * 256 + 64)
    -- if basicHeaderLen == 2 || basicHeaderLen == 3 { streamId += 64 }
    let streamId :=
      if basicHeaderLen = 2 ∨ basicHeaderLen = 3 then streamId + 64 else streamId
    Except.ok (⟨chunkHeaderFormat, streamId⟩, input.drop basicHeaderLen)

/-! ## AMF0 codec (`amf` package)

Translation of `AMF0Msg.MarshalBinary`, `AMF0Msg.UnmarshalBinary`,
`AMF0Object.MarshalBinary`, `AMF0Object.UnmarshalBinary` and
`scanForAMF0ObjectEnd`.

`AMF0Msg` is `map[int]interface{}`; the decoder fills keys `0,1,2,…` in
order and the encoder walks keys `0..len-1`, so a message is modelled as
the ordered list of its values (the encoder's missing-key error is
unreachable on this representation).  `AMF0Object` is
`map[string]interface{}`, modelled as an association list in insertion
order; Go map iteration order is unspecified, and the round-trip claim
compares objects as unordered maps, so a fixed order is harmless.
A number is carried as the 64-bit IEEE-754 pattern that
`math.Float64bits`/`math.Float64frombits` move verbatim.  The decoder for
a nested object inside an object stores a `*AMF0Object` pointer
(`(*o)[k] = obj`), while the top-level decoder stores the dereferenced
value (`(*m)[k] = *obj`); the pointer wrapping is kept as the distinct
constructor `objPtr` (which, like in Go, matches no case of the
marshaller's type switch). -/

mutual
/-- A Go `interface{}` holding one AMF0 value. -/
inductive AMF0Val where
  | num (bits : Nat)
  | boolean (b : Bool)
  | str (s : List Nat)
  | obj (o : AMF0Props)
  | objPtr (o : AMF0Props)
  | nullV
  deriving DecidableEq, Repr

/-- The contents of an `AMF0Object` (`map[string]interface{}`). -/
inductive AMF0Props where
  | nil
  | cons (key : List Nat) (v : AMF0Val) (rest : AMF0Props)
  deriving DecidableEq, Repr
end

/-- Go map assignment `(*o)[k] = v`: replace an existing key, otherwise
append. -/
def AMF0Props.set : AMF0Props → List Nat → AMF0Val → AMF0Props
  | .nil, k, v => .cons k v .nil
  | .cons k' v' r, k, v =>
    if k' = k then .cons k' v r else .cons k' v' (r.set k v)

mutual
/-- One arm of the encoders' shared type switch (the switch bodies in
`AMF0Msg.MarshalBinary` and `AMF0Object.MarshalBinary` are identical). -/
def marshalVal : AMF0Val → M (List Nat)
  | .num v => .ok (0x00 :: be64 v)
  | .boolean v => .ok [0x01, if v then 0x01 else 0x00]
  | .str v =>
    if v.length ≥ 0xFFFF then .error (.err .strTooLong)
    else .ok (0x02 :: (be16 v.length ++ v))
  | .obj o => AMF0Object.MarshalBinary o -- v.MarshalBinary()
  | .objPtr _ => .error (.err .typeUnknown) -- *AMF0Object matches no case
  | .nullV => .ok [0x05]

/-- `AMF0Object.MarshalBinary`: object start marker, the properties,
then the null key marker and the object end marker. -/
def AMF0Object.MarshalBinary (o : AMF0Props) : M (List Nat) := do
  let body ← marshalProps o
  .ok (0x03 :: (body ++ [0x00, 0x00, 0x09]))

/-- The `for k, v := range *o` loop of `AMF0Object.MarshalBinary`. -/
def marshalProps : AMF0Props → M (List Nat)
  | .nil => .ok []
  | .cons k v rest =>
    if k.length ≥ 0xFFFF then .error (.err .strTooLong)
    else do
      let vb ← marshalVal v
      let rb ← marshalProps rest
      .ok (be16 k.length ++ k ++ vb ++ rb)
end

/-- `AMF0Msg.MarshalBinary`: walk the keys `0..len-1` in order and encode
each value through the type switch. -/
def AMF0Msg.MarshalBinary : List AMF0Val → M (List Nat)
  | [] => .ok []
  | v :: rest => do
    let b ← marshalVal v
    let r ← AMF0Msg.MarshalBinary rest
    .ok (b ++ r)

/-- The opening of `scanForAMF0ObjectEnd`:
`if len(b) < 1 || b[i] != 0x03` with `i = 0`. -/
def scanStartCheck (b : List Nat) : M Unit :=
  if b.length < 1 then .error (.err .objStartMarker)
  else do
    let b0 ← idx b 0
    if b0 ≠ 0x03 then .error (.err .objStartMarker) else .ok ()

/-- The `for i < len(b)` loop of `scanForAMF0ObjectEnd`, fuel-recursive.
A nested object marker re-enters the scan on the suffix `b[i:]`, exactly
as the source's recursive call does; its result `offset` is consumed as
`i = i + offset + 1`. -/
def scanLoop (fuel : Nat) (b : List Nat) (i : Nat) : M Nat :=
  match fuel with
  | 0 => .error .fuelGone
  | fuel + 1 =>
    if i < b.length then
      if i + 3 > b.length then .error (.err .keySizeBytes)
      else do
        let kb ← slice b i (i + 2)
        let kSz := beVal kb
        if kSz ≠ 0 then
          if i + 2 + kSz > b.length - 3 then .error (.err .keyBytes)
          else
            let i := i + 2 + kSz
            if i > b.length - 3 then .error (.err .keyTypeBytes)
            else do
              let m ← idx b i
              match m with
              | 0x00 =>
                if i + 9 > b.length - 3 then .error (.err .numBytes)
                else scanLoop fuel b (i + 8 + 1)
              | 0x01 =>
                if i + 1 > b.length - 3 then .error (.err .boolBytes)
                else scanLoop fuel b (i + 1 + 1)
              | 0x02 =>
                if i + 2 > b.length - 3 then .error (.err .strSizeBytes)
                else do
                  let sb ← slice b (i + 1) (i + 3)
                  let strSz := beVal sb
                  if i + 2 + strSz > b.length - 3 then .error (.err .strBytes)
                  else scanLoop fuel b (i + 2 + strSz + 1)
              | 0x03 =>
                if i + 3 > b.length - 3 then .error (.err .objBytes)
                else do
                  scanStartCheck (b.drop i)
                  let offset ← scanLoop fuel (b.drop i) 1
                  scanLoop fuel b (i + offset + 1)
              | 0x05 => scanLoop fuel b (i + 1)
              | mk => .error (.err (.unknownMarker mk))
        else do
          -- null key sigil: i += 2; if b[i] == 0x09 { i += 1; return i }
          let i := i + 2
          let v ← idx b i
          if v = 0x09 then .ok (i + 1) else scanLoop fuel b i
    else .error (.err .noObjEnd)

/-- The start-marker and end-marker pre-checks of
`AMF0Object.UnmarshalBinary`. -/
def objPreChecks (b : List Nat) : M Unit := do
  -- if len(b) < 1 || b[i] != 0x03
  (if b.length < 1 then .error (.err .objStartMarker)
   else do
     let b0 ← idx b 0
     if b0 ≠ 0x03 then .error (.err .objStartMarker) else .ok ())
  -- if len(b) <= 3 || b[len(b)-3] != 0x00 || b[len(b)-2] != 0x00 || b[len(b)-1] != 0x09
  if b.length ≤ 3 then .error (.err .objEndMarker)
  else do
    let e3 ← idx b (b.length - 3)
    if e3 ≠ 0x00 then .error (.err .objEndMarker)
    else do
      let e2 ← idx b (b.length - 2)
      if e2 ≠ 0x00 then .error (.err .objEndMarker)
      else do
        let e1 ← idx b (b.length - 1)
        if e1 ≠ 0x09 then .error (.err .objEndMarker) else .ok ()

/-- The `for i < (len(b) - 3)` loop of `AMF0Object.UnmarshalBinary`,
fuel-recursive.  A nested object runs the scan on `b[i:]`, then
`AMF0Object.UnmarshalBinary` (pre-checks plus this loop from 1) on
`b[i : i+objSz]`, and stores the resulting pointer. -/
def objLoop (fuel : Nat) (b : List Nat) (i : Nat) (acc : AMF0Props) :
    M AMF0Props :=
  match fuel with
  | 0 => .error .fuelGone
  | fuel + 1 =>
    if i < b.length - 3 then
      if i + 3 > b.length then .error (.err .keySizeBytes)
      else do
        let kb ← slice b i (i + 2)
        let kSz := beVal kb
        if kSz ≠ 0 then
          if i + 2 + kSz > b.length - 3 then .error (.err .keyBytes)
          else do
            let k ← slice b (i + 2) (i + 2 + kSz)
            let i := i + 2 + kSz
            if i > b.length - 3 then .error (.err .keyTypeBytes)
            else do
              let m ← idx b i
              match m with
              | 0x00 =>
                if i + 9 > b.length - 3 then .error (.err .numBytes)
                else do
                  let nb ← slice b (i + 1) (i + 9)
                  objLoop fuel b (i + 8 + 1) (acc.set k (.num (beVal nb)))
              | 0x01 =>
                if i + 1 > b.length - 3 then .error (.err .boolBytes)
                else do
                  let v ← idx b (i + 1)
                  objLoop fuel b (i + 1 + 1) (acc.set k (.boolean (v ≠ 0x00)))
              | 0x02 =>
                if i + 2 > b.length - 3 then .error (.err .strSizeBytes)
                else do
                  let sb ← slice b (i + 1) (i + 3)
                  let strSz := beVal sb
                  if i + 2 + strSz > b.length - 3 then .error (.err .strBytes)
                  else do
                    let s ← slice b (i + 3) (i + 3 + strSz)
                    objLoop fuel b (i + 3 + strSz) (acc.set k (.str s))
              | 0x03 =>
                if i + 3 > b.length - 3 then .error (.err .objBytes)
                else do
                  scanStartCheck (b.drop i)
                  let objSz ← scanLoop fuel (b.drop i) 1
                  let sub ← slice b i (i + objSz)
                  objPreChecks sub
                  let obj ← objLoop fuel sub 1 .nil
                  objLoop fuel b (i + objSz) (acc.set k (.objPtr obj))
              | 0x05 => objLoop fuel b (i + 1) (acc.set k .nullV)
              | mk => .error (.err (.unknownMarker mk))
        else objLoop fuel b (i + 2) acc -- null key sigil: i += 2
    else .ok acc

/-- The `for i < len(b)` loop of `AMF0Msg.UnmarshalBinary`,
fuel-recursive; `k` advances with the accumulated list.  A nested object
runs the scan on `b[i:]`, then the object decoder on `b[i : i+objSz]`,
and stores the dereferenced object value. -/
def msgLoop (fuel : Nat) (b : List Nat) (i : Nat) (acc : List AMF0Val) :
    M (List AMF0Val) :=
  match fuel with
  | 0 => .error .fuelGone
  | fuel + 1 =>
    if i < b.length then do
      let m ← idx b i
      match m with
      | 0x00 =>
        if i + 9 > b.length then .error (.err .numBytes)
        else do
          let nb ← slice b (i + 1) (i + 9)
          msgLoop fuel b (i + 9) (acc ++ [.num (beVal nb)])
      | 0x01 =>
        if i + 1 > b.length then .error (.err .boolBytes)
        else do
          -- b[i+1]: the guard above does not exclude i+1 = len(b)
          let v ← idx b (i + 1)
          msgLoop fuel b (i + 2) (acc ++ [.boolean (v ≠ 0x00)])
      | 0x02 =>
        if i + 2 > b.length then .error (.err .strSizeBytes)
        else do
          -- b[i+1:i+3]: the guard above does not exclude i+2 = len(b)
          let sb ← slice b (i + 1) (i + 3)
          let strSz := beVal sb
          if i + 2 + strSz > b.length then .error (.err .strBytes)
          else do
            let s ← slice b (i + 3) (i + 3 + strSz)
            msgLoop fuel b (i + 3 + strSz) (acc ++ [.str s])
      | 0x03 =>
        if i + 3 > b.length then .error (.err .objBytes)
        else do
          scanStartCheck (b.drop i)
          let objSz ← scanLoop fuel (b.drop i) 1
          let sub ← slice b i (i + objSz)
          objPreChecks sub
          let obj ← objLoop fuel sub 1 .nil
          msgLoop fuel b (i + objSz) (acc ++ [.obj obj])
      | 0x05 => msgLoop fuel b (i + 1) (acc ++ [.nullV])
      | mk => .error (.err (.unknownMarker mk))
    else .ok acc

/-- Fuel for the decoder wrappers.  Every loop step of `msgLoop`,
`objLoop` and `scanLoop` advances its cursor by at least one byte of its
slice, and nested calls run on strictly shorter suffixes, so the total
number of steps on an input of length `n` is below `(n+2)^3`; the fuel is
never exhausted. -/
def amfFuel (b : List Nat) : Nat := (b.length + 2) ^ 3

/-- `AMF0Msg.UnmarshalBinary`. -/
def AMF0Msg.UnmarshalBinary (b : List Nat) : M (List AMF0Val) :=
  msgLoop (amfFuel b) b 0 []

/-- `AMF0Object.UnmarshalBinary`. -/
def AMF0Object.UnmarshalBinary (b : List Nat) : M AMF0Props := do
  objPreChecks b
  objLoop (amfFuel b) b 1 .nil

/-- `scanForAMF0ObjectEnd`. -/
def scanForAMF0ObjectEnd (b : List Nat) : M Nat := do
  scanStartCheck b
  scanLoop (amfFuel b) b 1

/-! ## Chunk message header codec and connection state (`rtmp` package)

The `conn` struct holds one set of previous-incoming-message fields for
the whole connection (`prvIncMsgTs`, `prvIncMsgTsD`, `prvIncMsgLen`,
`prvIncMsgTypId`, `prvIncMsgStrmId`), each a nullable pointer, modelled
as `Option Nat`.  `prvIncMsgTime` records the wall-clock arrival time
and influences nothing that is modelled; the outgoing-side fields and
the acknowledgement counters are not touched by the translated paths.  A
header reader consumes bytes from the front of the input list and
returns the updated state and the remaining bytes. -/

structure ConnSt where
  prvIncMsgTs : Option Nat
  prvIncMsgTsD : Option Nat
  prvIncMsgLen : Option Nat
  prvIncMsgTypId : Option Nat
  prvIncMsgStrmId : Option Nat
  deriving DecidableEq, Repr

/-- A freshly accepted connection: every previous-message pointer nil. -/
def ConnSt.init : ConnSt := ⟨none, none, none, none, none⟩

/-- `conn.readType0MessageHeader`: 11 bytes — 3-byte timestamp, 3-byte
length, 1-byte type id, 4-byte message stream id (read big-endian by
`binary.BigEndian.Uint32(header[7:])`).  The timestamp delta field is
left untouched.  The `FIXME: handle extended timestamp` in the source is
exactly that: a timestamp field of 0xFFFFFF is stored literally and no
extended-timestamp bytes are consumed. -/
def readType0MessageHeader (s : ConnSt) (input : List Nat) :
    M (ConnSt × List Nat) :=
  if input.length < 11 then .error (.err .shortRead)
  else
    let header := input.take 11
    let msgTs := beVal (header.take 3)
    let msgLen := beVal ((header.drop 3).take 3)
    let msgTypId := header.getD 6 0
    let msgStrmId := beVal (header.drop 7)
    .ok ({ s with
            prvIncMsgTs := some msgTs
            prvIncMsgLen := some msgLen
            prvIncMsgTypId := some msgTypId
            prvIncMsgStrmId := some msgStrmId },
         input.drop 11)

/-- `conn.readType1MessageHeader`: nil checks on the previous stream id
and timestamp, then 7 bytes — 3-byte timestamp delta, 3-byte length,
1-byte type id.  The new absolute timestamp is the previous one plus the
delta, rolled at 2^24; the message stream id is inherited unchanged. -/
def readType1MessageHeader (s : ConnSt) (input : List Nat) :
    M (ConnSt × List Nat) :=
  match s.prvIncMsgStrmId, s.prvIncMsgTs with
  | none, _ => .error (.err .noPriorStrmId)
  | some _, none => .error (.err .noPriorTs)
  | some _, some prvTs =>
    if input.length < 7 then .error (.err .shortRead)
    else
      let header := input.take 7
      let msgTsD := beVal (header.take 3)
      let msgTs := (prvTs + msgTsD) % 0x01000000
      let msgLen := beVal ((header.drop 3).take 3)
      let msgTypId := header.getD 6 0
      .ok ({ s with
              prvIncMsgTsD := some msgTsD
              prvIncMsgTs := some msgTs
              prvIncMsgLen := some msgLen
              prvIncMsgTypId := some msgTypId },
           input.drop 7)

/-- `conn.readType2MessageHeader`: nil checks on stream id, timestamp,
length and type id, then 3 bytes of timestamp delta; everything else is
inherited. -/
def readType2MessageHeader (s : ConnSt) (input : List Nat) :
    M (ConnSt × List Nat) :=
  match s.prvIncMsgStrmId, s.prvIncMsgTs, s.prvIncMsgLen,
      s.prvIncMsgTypId with
  | none, _, _, _ => .error (.err .noPriorStrmId)
  | some _, none, _, _ => .error (.err .noPriorTs)
  | some _, some _, none, _ => .error (.err .noPriorLen)
  | some _, some _, some _, none => .error (.err .noPriorTypId)
  | some _, some prvTs, some _, some _ =>
    if input.length < 3 then .error (.err .shortRead)
    else
      let header := input.take 3
      let msgTsD := beVal header
      let msgTs := (prvTs + msgTsD) % 0x01000000
      .ok ({ s with
              prvIncMsgTsD := some msgTsD
              prvIncMsgTs := some msgTs },
           input.drop 3)

/-- `conn.verifyType3MessageHeader`: nil checks on all five fields,
no bytes consumed; the new absolute timestamp is the previous one plus
the stored delta, rolled at 2^24. -/
def verifyType3MessageHeader (s : ConnSt) (input : List Nat) :
    M (ConnSt × List Nat) :=
  match s.prvIncMsgStrmId, s.prvIncMsgTs, s.prvIncMsgLen,
      s.prvIncMsgTypId, s.prvIncMsgTsD with
  | none, _, _, _, _ => .error (.err .noPriorStrmId)
  | some _, none, _, _, _ => .error (.err .noPriorTs)
  | some _, some _, none, _, _ => .error (.err .noPriorLen)
  | some _, some _, some _, none, _ => .error (.err .noPriorTypId)
  | some _, some _, some _, some _, none => .error (.err .noPriorTsD)
  | some _, some prvTs, some _, some _, some prvTsD =>
    let msgTs := (prvTs + prvTsD) % 0x01000000
    .ok ({ s with prvIncMsgTs := some msgTs }, input)

/-! ## Chunk write side (`rtmp` package) -/

/-- `conn.writeChunkBasicHeader`: range checks, then the 1/2/3-byte
encoding with the format bits folded into the first byte.  Returns the
bytes written to `bufw`. -/
def writeChunkBasicHeader (format chunkStreamId : Nat) : M (List Nat) :=
  if format > 3 then .error (.err .fmtTooLarge)
  else if chunkStreamId > 65599 then .error (.err .csidTooLarge)
  else if chunkStreamId < 2 then .error (.err .csidTooSmall)
  else do
    let fmtBits ← match format with
      | 0 => Except.ok 0x00
      | 1 => Except.ok 0x40
      | 2 => Except.ok 0x80
      | 3 => Except.ok 0xC0
      | _ => Except.error (.err .invalidFmt) -- "This shouldn't be reachable"
    if 2 ≤ chunkStreamId ∧ chunkStreamId < 64 then
      -- csBytes ← BigEndian(chunkStreamId); write csBytes[3:4]
      let csBytes := be32 chunkStreamId
      .ok [(csBytes.getD 3 0 &&& 0x3F) ||| fmtBits]
    else if 64 ≤ chunkStreamId ∧ chunkStreamId < 320 then
      -- csBytes ← BigEndian(chunkStreamId-64); write csBytes[2:4]
      let csBytes := be32 (chunkStreamId - 64)
      .ok [(csBytes.getD 2 0 &&& 0x3F) ||| fmtBits, csBytes.getD 3 0]
    else if 320 ≤ chunkStreamId ∧ chunkStreamId < 65599 then
      -- csBytes ← BigEndian(chunkStreamId-64); write csBytes[1:4]
      let csBytes := be32 (chunkStreamId - 64)
      .ok [((csBytes.getD 1 0 &&& 0x3F) ||| fmtBits) ||| 0x01,
           csBytes.getD 2 0, csBytes.getD 3 0]
    else .error (.err .invalidCsid) -- "This shouldn't be reachable"

/-- `conn.writeType0ChunkMessageHeader`: roll the timestamp at 2^24,
bound the length, validate the message type / stream id / chunk stream
id combination, then write the 11-byte header.  Returns the bytes
written to `bufw`. -/
def writeType0ChunkMessageHeader
    (ts msgLen msgType msgStrmId chunkStreamId : Nat) : M (List Nat) := do
  let ts := if ts > 0xFFFFFF then ts % 0x01000000 else ts
  if msgLen > 0xFFFFFF then .error (.err .msgLenTooLarge)
  else do
    (if msgType = 1 ∨ msgType = 2 ∨ msgType = 3 ∨ msgType = 4 ∨
        msgType = 5 ∨ msgType = 6 then
      -- protocol control: message stream id must be 0, chunk stream 2
      if msgStrmId ≠ 0 then Except.error (.err .strmIdNotZero)
      else if chunkStreamId ≠ 2 then Except.error (.err .csidNot2)
      else Except.ok ()
    else if msgType = 8 ∨ msgType = 9 ∨ msgType = 15 ∨ msgType = 16 ∨
        msgType = 17 ∨ msgType = 18 ∨ msgType = 19 ∨ msgType = 20 ∨
        msgType = 22 then
      if chunkStreamId < 2 then Except.error (.err .badCsidForMsg)
      else if chunkStreamId = 2 then Except.error (.err .csidReserved)
      else Except.ok ()
    else Except.error (.err .msgTypeUnknown))
    .ok ((be32 ts).drop 1 ++ (be32 msgLen).drop 1 ++ [msgType] ++
         be32 msgStrmId)

/-- A call whose returned error the caller discards: the Go writers are
invoked as bare statements, and each of their error paths precedes any
write, so an erroring call has contributed no bytes. -/
def dropErr (r : M (List Nat)) : List Nat :=
  match r with
  | .ok l => l
  | .error _ => []

/-- Bytes of `conn.writeWindowSizeAcknowledgementChunk` (type 5,
payload `{0, 0, 250, 0}` on chunk stream 2).  Defined like the source —
and, like in the source, never invoked by any translated path. -/
def writeWindowSizeAcknowledgementChunk : List Nat :=
  dropErr (writeChunkBasicHeader 0 2) ++
  dropErr (writeType0ChunkMessageHeader 0 4 5 0 2) ++ [0, 0, 250, 0]

/-- Bytes of `conn.writeSetPeerBandwidthChunk` (type 6, payload
`{0, 5, 0, 0, 0}` on chunk stream 2); never invoked. -/
def writeSetPeerBandwidthChunk : List Nat :=
  dropErr (writeChunkBasicHeader 0 2) ++
  dropErr (writeType0ChunkMessageHeader 0 5 6 0 2) ++ [0, 5, 0, 0, 0]

/-! ## AMF0 `_result` writers (`rtmp` package)

Each Go writer builds a four-element `AMF0Msg` literal, marshals it,
bounds its size, and then calls `writeChunkBasicHeader(0, 2)`,
`writeType0ChunkMessageHeader(0, len(b), 20, 0, 2)` and `bufw.Write(b)`,
discarding the two header writers' returned errors.  The message
literals are kept as separate definitions mirroring the `msg := …`
statements. -/

/-- Bytes of the string `"_result"`. -/
def resultStr : List Nat := [95, 114, 101, 115, 117, 108, 116]

/-- Bytes of the key `"level"`. -/
def levelKey : List Nat := [108, 101, 118, 101, 108]

/-- Bytes of the string `"status"`. -/
def statusStr : List Nat := [115, 116, 97, 116, 117, 115]

/-- Bytes of the key `"code"`. -/
def codeKey : List Nat := [99, 111, 100, 101]

/-- Bytes of the string `"NetConnection.Connect.Success"`. -/
def nccsStr : List Nat :=
  [78, 101, 116, 67, 111, 110, 110, 101, 99, 116, 105, 111, 110, 46,
   67, 111, 110, 110, 101, 99, 116, 46, 83, 117, 99, 99, 101, 115, 115]

/-- The IEEE-754 bit pattern of the float64 literal `1.0`. -/
def float1Bits : Nat := 0x3FF0000000000000

/-- The `msg := &amf.AMF0Msg{…}` literal of `writeAMF0PublishSuccess`. -/
def writeAMF0PublishSuccessMsg (tId : Nat) : List AMF0Val :=
  [.str resultStr, .num tId, .obj .nil,
   .obj (.cons levelKey (.str statusStr)
          (.cons codeKey (.str nccsStr) .nil))]

/-- The message literal of `writeAMF0FCPublishSuccess`. -/
def writeAMF0FCPublishSuccessMsg (tId : Nat) : List AMF0Val :=
  [.str resultStr, .num tId, .obj .nil,
   .obj (.cons levelKey (.str statusStr)
          (.cons codeKey (.str nccsStr) .nil))]

/-- The message literal of `writeAMF0CreateStreamSuccess`. -/
def writeAMF0CreateStreamSuccessMsg (tId : Nat) : List AMF0Val :=
  [.str resultStr, .num tId, .obj .nil,
   .obj (.cons levelKey (.str statusStr)
          (.cons codeKey (.str nccsStr) .nil))]

/-- The message literal of `writeAMF0ReleaseStreamSuccess`. -/
def writeAMF0ReleaseStreamSuccessMsg (tId : Nat) : List AMF0Val :=
  [.str resultStr, .num tId, .obj .nil,
   .obj (.cons levelKey (.str statusStr)
          (.cons codeKey (.str nccsStr) .nil))]

/-- The message literal of `writeAMF0NetConnectionConnectSuccess`; the
transaction id is the constant `1.0`. -/
def writeAMF0NetConnectionConnectSuccessMsg : List AMF0Val :=
  [.str resultStr, .num float1Bits, .obj .nil,
   .obj (.cons levelKey (.str statusStr)
          (.cons codeKey (.str nccsStr) .nil))]

/-- `conn.writeAMF0PublishSuccess`: marshal, bound, and emit; the bytes
written to `bufw` are returned. -/
def writeAMF0PublishSuccess (tId : Nat) : M (List Nat) := do
  let b ← AMF0Msg.MarshalBinary (writeAMF0PublishSuccessMsg tId)
  if b.length > 0xFFFFFF then .error (.err .amf0TooLarge)
  else
    .ok (dropErr (writeChunkBasicHeader 0 2) ++
         dropErr (writeType0ChunkMessageHeader 0 b.length 20 0 2) ++ b)

/-- `conn.writeAMF0FCPublishSuccess`. -/
def writeAMF0FCPublishSuccess (tId : Nat) : M (List Nat) := do
  let b ← AMF0Msg.MarshalBinary (writeAMF0FCPublishSuccessMsg tId)
  if b.length > 0xFFFFFF then .error (.err .amf0TooLarge)
  else
    .ok (dropErr (writeChunkBasicHeader 0 2) ++
         dropErr (writeType0ChunkMessageHeader 0 b.length 20 0 2) ++ b)

/-- `conn.writeAMF0CreateStreamSuccess`. -/
def writeAMF0CreateStreamSuccess (tId : Nat) : M (List Nat) := do
  let b ← AMF0Msg.MarshalBinary (writeAMF0CreateStreamSuccessMsg tId)
  if b.length > 0xFFFFFF then .error (.err .amf0TooLarge)
  else
    .ok (dropErr (writeChunkBasicHeader 0 2) ++
         dropErr (writeType0ChunkMessageHeader 0 b.length 20 0 2) ++ b)

/-- `conn.writeAMF0ReleaseStreamSuccess`. -/
def writeAMF0ReleaseStreamSuccess (tId : Nat) : M (List Nat) := do
  let b ← AMF0Msg.MarshalBinary (writeAMF0ReleaseStreamSuccessMsg tId)
  if b.length > 0xFFFFFF then .error (.err .amf0TooLarge)
  else
    .ok (dropErr (writeChunkBasicHeader 0 2) ++
         dropErr (writeType0ChunkMessageHeader 0 b.length 20 0 2) ++ b)

/-- `conn.writeAMF0NetConnectionConnectSuccess`. -/
def writeAMF0NetConnectionConnectSuccess : M (List Nat) := do
  let b ← AMF0Msg.MarshalBinary writeAMF0NetConnectionConnectSuccessMsg
  if b.length > 0xFFFFFF then .error (.err .amf0TooLarge)
  else
    .ok (dropErr (writeChunkBasicHeader 0 2) ++
         dropErr (writeType0ChunkMessageHeader 0 b.length 20 0 2) ++ b)

/-! ## Receive loop and command dispatch (`conn.receiveChunk`) -/

/-- Bytes of the command name `"connect"`. -/
def connectStr : List Nat := [99, 111, 110, 110, 101, 99, 116]

/-- Bytes of the command name `"FCPublish"`. -/
def fcPublishStr : List Nat := [70, 67, 80, 117, 98, 108, 105, 115, 104]

/-- Bytes of the command name `"releaseStream"`. -/
def releaseStreamStr : List Nat :=
  [114, 101, 108, 101, 97, 115, 101, 83, 116, 114, 101, 97, 109]

/-- Bytes of the command name `"createStream"`. -/
def createStreamStr : List Nat :=
  [99, 114, 101, 97, 116, 101, 83, 116, 114, 101, 97, 109]

/-- Bytes of the command name `"publish"`. -/
def publishStr : List Nat := [112, 117, 98, 108, 105, 115, 104]

/-- The `_result` writer helpers a dispatch can invoke (tags for the
source functions; `windowAck`, `setPeerBandwidth` and `startStream` tag
`writeWindowSizeAcknowledgementChunk`, `writeSetPeerBandwidthChunk` and
`writeRTMPStartStreamMessage`, which have no caller in the source). -/
inductive WCall where
  | connectSuccess
  | fcPublishSuccess
  | releaseStreamSuccess
  | createStreamSuccess
  | windowAck
  | setPeerBandwidth
  | startStream
  deriving DecidableEq, Repr

/-- Go's one-result type assertion `x.(float64)`: panics unless the
interface holds a float64. -/
def assertFloat64 : Option AMF0Val → M Nat
  | some (.num f) => .ok f
  | _ => .error .panic

/-- The `case 20:` body of `conn.receiveChunk`: unmarshal the message
(returning its error on failure), look up element 0, and switch on the
command name; each recognized command invokes one `_result` writer, with
the writer's returned error discarded.  The source's `publish` case calls
`writeAMF0CreateStreamSuccess`.  Returns the writer tags invoked and the
bytes written. -/
def amf0CommandDispatch (message : List Nat) : M (List WCall × List Nat) :=
  match AMF0Msg.UnmarshalBinary message with
  | .error e => .error e
  | .ok amf0 =>
    match amf0[0]? with
    | none => .ok ([], []) -- "Tots bonkers message. ---"
    | some v =>
      match v with
      | .str cmd =>
        if cmd = connectStr then
          .ok ([.connectSuccess], dropErr writeAMF0NetConnectionConnectSuccess)
        else if cmd = fcPublishStr then do
          let f ← assertFloat64 amf0[1]?
          .ok ([.fcPublishSuccess], dropErr (writeAMF0FCPublishSuccess f))
        else if cmd = releaseStreamStr then do
          let f ← assertFloat64 amf0[1]?
          .ok ([.releaseStreamSuccess], dropErr (writeAMF0ReleaseStreamSuccess f))
        else if cmd = createStreamStr then do
          let f ← assertFloat64 amf0[1]?
          .ok ([.createStreamSuccess], dropErr (writeAMF0CreateStreamSuccess f))
        else if cmd = publishStr then do
          let f ← assertFloat64 amf0[1]?
          .ok ([.createStreamSuccess], dropErr (writeAMF0CreateStreamSuccess f))
        else .ok ([], [])
      | _ => .ok ([], [])

/-- What one `conn.receiveChunk` call did: the updated prior-header
state, the size of the `make([]byte, *c.prvIncMsgLen)` allocation, the
unconsumed input, and the writer tags and bytes emitted by the dispatch. -/
structure ChunkRecv where
  state : ConnSt
  allocSize : Nat
  rest : List Nat
  calls : List WCall
  out : List Nat
  deriving DecidableEq, Repr

/-- `conn.receiveChunk`: basic header, message header by format, payload
buffer of the peer-declared length (with no upper bound — the source's
own FIXME: "do not allocate memory based on a network peer's demands"),
then the type-20 dispatch.  The basic-header error is not checked before
`basicHeader.ChunkMessageHeaderFormat` is read; on error `basicHeader`
is nil and the field access is a nil-pointer dereference. -/
def receiveChunk (s : ConnSt) (input : List Nat) : M ChunkRecv :=
  (match receiveChunkBasicHeader input with
   | .ok r => Except.ok r
   | .error _ => Except.error Failure.panic) >>= fun (basicHeader, input) =>
  (match basicHeader.ChunkMessageHeaderFormat with
   | 0 => readType0MessageHeader s input
   | 1 => readType1MessageHeader s input
   | 2 => readType2MessageHeader s input
   | _ => verifyType3MessageHeader s input) >>= fun (s, input) =>
  -- message := make([]byte, *c.prvIncMsgLen); c.bufr.Read(message)
  -- (one Read call; the unfilled tail of the allocation stays zero)
  (match s.prvIncMsgLen with
   | some l => Except.ok l
   | none => Except.error Failure.panic) >>= fun msgLen =>
  (match s.prvIncMsgTypId with
   | some t => Except.ok t
   | none => Except.error Failure.panic) >>= fun typId =>
  if typId = 20 then
    amf0CommandDispatch
        (input.take msgLen ++ List.replicate (msgLen - input.length) 0) >>=
      fun co => Except.ok ⟨s, msgLen, input.drop msgLen, co.1, co.2⟩
  else
    Except.ok ⟨s, msgLen, input.drop msgLen, [], []⟩

/-- Iterate `conn.receiveChunk` as the `serve` loop does, threading the
prior-header state and the remaining input. -/
def receiveChunks : Nat → ConnSt → List Nat → M (ConnSt × List Nat)
  | 0, s, input => .ok (s, input)
  | n + 1, s, input => do
    let r ← receiveChunk s input
    receiveChunks n r.state r.rest

/-- The writer tags produced by a `receiveChunk` outcome (none when the
call returned an error or panicked). -/
def callsOf (r : M ChunkRecv) : List WCall :=
  match r with
  | .ok o => o.calls
  | .error _ => []

/-! ## Handshake acknowledgement check (`conn.receiveHandshake`)

After echoing C1 as S2, the server reads the 1536-byte C2 and fails the
handshake iff `bytes.Compare(c2[8:], s1Random) != 0`, where `s1Random`
is the server's own 1528-byte S1 random block. -/

/-- `true` iff `conn.receiveHandshake` fails with the
"C2 did not acknowledge" error for this C2 and S1 random block. -/
def receiveHandshakeC2AckFails (c2 s1Random : List Nat) : Bool :=
  decide (c2.drop 8 ≠ s1Random)

/-! ## Concrete inputs and spec-side definitions used by the claims -/

/-- A minimal AMF0 message whose only element is an object holding one
nested (empty) object under the key `"a"`. -/
def nestedObjMsg : List AMF0Val :=
  [.obj (.cons [97] (.obj .nil) .nil)]

/-- A type-0 chunk on chunk stream 3 declaring message length 0xFFFFFF
(the largest value the 3-byte field can carry), type id 8, with no
payload bytes following. -/
def hugeLenChunk : List Nat :=
  [0x03] ++ [0, 0, 0] ++ [0xFF, 0xFF, 0xFF] ++ [8] ++ [0, 0, 0, 1]

/-- An 11-byte type-0 message header whose timestamp field is 0xFFFFFF,
followed by four bytes 0xAB 0xCD 0xEF 0x01 that an extended-timestamp
reader would consume. -/
def extTsHeaderInput : List Nat :=
  [0xFF, 0xFF, 0xFF] ++ [0, 0, 5] ++ [8] ++ [0, 0, 0, 1] ++
  [0xAB, 0xCD, 0xEF, 0x01]

/-- Three chunks: a type-0 chunk on chunk stream 3 (timestamp 10, length
1, type 8, message stream id 1), a type-0 chunk on chunk stream 4
(timestamp 100, length 2, type 9, message stream id 2), then a type-1
chunk on chunk stream 3 (delta 1, length 1, type 8). -/
def interleavedChunks : List Nat :=
  ([0x03] ++ [0, 0, 10] ++ [0, 0, 1] ++ [8] ++ [0, 0, 0, 1] ++ [0xAA]) ++
  ([0x04] ++ [0, 0, 100] ++ [0, 0, 2] ++ [9] ++ [0, 0, 0, 2] ++
   [0xBB, 0xCC]) ++
  ([0x43] ++ [0, 0, 1] ++ [0, 0, 1] ++ [8] ++ [0xDD])

/-- The wire bytes of the AMF0 command `["connect", 1.0]`. -/
def connectCommandBytes : List Nat :=
  [0x02, 0x00, 0x07] ++ connectStr ++ (0x00 :: be64 float1Bits)

/-- A complete type-0 chunk on chunk stream 3 carrying the type-20
command `["connect", 1.0]` on message stream 0. -/
def connectChunk : List Nat :=
  [0x03] ++ [0, 0, 0] ++ [0, 0, 19] ++ [20] ++ [0, 0, 0, 0] ++
  connectCommandBytes

/-- Spec-side definition (from the claim's words): the `_result` message
every writer is said to compose — `_result`, the transaction id, an
empty properties object, and the status object
`{level: "status", code: "NetConnection.Connect.Success"}`. -/
def resultMsg (tId : Nat) : List AMF0Val :=
  [.str resultStr, .num tId, .obj .nil,
   .obj (.cons levelKey (.str statusStr)
          (.cons codeKey (.str nccsStr) .nil))]

/-- Spec-side definition: the marshalled bytes of `resultMsg tId`
(81 bytes). -/
def resultMsgWire (tId : Nat) : List Nat :=
  ([0x02, 0x00, 0x07] ++ resultStr) ++
  (0x00 :: be64 tId) ++
  [0x03, 0x00, 0x00, 0x09] ++
  ([0x03] ++ ([0x00, 0x05] ++ levelKey ++ ([0x02, 0x00, 0x06] ++ statusStr)) ++
   ([0x00, 0x04] ++ codeKey ++ ([0x02, 0x00, 0x1D] ++ nccsStr)) ++
   [0x00, 0x00, 0x09])

/-- Spec-side definition (from the claim's words): the 11-byte type-0
message header that "emitted as a type-20 message with message stream id
0" would put on the wire for an 81-byte reply at timestamp 0. -/
def resultType0Header : List Nat :=
  [0, 0, 0] ++ [0, 0, 81] ++ [20] ++ [0, 0, 0, 0]

/-! # Helper lemmas -/

/-- Reduce a bind of a successful step. -/
theorem M.bind_ok {a b : Type} (x : a) (f : a → M b) :
    (Except.ok x : M a) >>= f = f x := rfl

/-- Reduce a bind of a failed step. -/
theorem M.bind_err {a b : Type} (e : Failure) (f : a → M b) :
    (Except.error e : M a) >>= f = Except.error e := rfl

/-- Marshalling the shared `_result` message produces the shared wire
payload, for every transaction id. -/
theorem marshal_resultMsg (tId : Nat) :
    AMF0Msg.MarshalBinary (resultMsg tId) = .ok (resultMsgWire tId) := by
  simp [AMF0Msg.MarshalBinary, marshalVal, AMF0Object.MarshalBinary, marshalProps,
        resultMsg, resultMsgWire, be16, levelKey, statusStr, codeKey, nccsStr,
        resultStr, M.bind_ok, M.bind_err]

/-- The shared `_result` wire payload is 81 bytes long. -/
theorem resultMsgWire_length (tId : Nat) : (resultMsgWire tId).length = 81 := by
  simp [resultMsgWire, be64, levelKey, statusStr, codeKey, nccsStr, resultStr]

/-- The five `_result` writers compose one and the same message. -/
theorem writerMsgs_eq (tId : Nat) :
    writeAMF0PublishSuccessMsg tId = resultMsg tId ∧
    writeAMF0FCPublishSuccessMsg tId = resultMsg tId ∧
    writeAMF0CreateStreamSuccessMsg tId = resultMsg tId ∧
    writeAMF0ReleaseStreamSuccessMsg tId = resultMsg tId ∧
    writeAMF0NetConnectionConnectSuccessMsg = resultMsg float1Bits :=
  ⟨rfl, rfl, rfl, rfl, rfl⟩

/-- `writeAMF0CreateStreamSuccess` emits the basic-header byte followed
directly by the bare payload (its message-header sub-call errors and
writes nothing). -/
theorem writeAMF0CreateStreamSuccess_eq (tId : Nat) :
    writeAMF0CreateStreamSuccess tId = .ok (0x02 :: resultMsgWire tId) := by
  unfold writeAMF0CreateStreamSuccess
  rw [show writeAMF0CreateStreamSuccessMsg tId = resultMsg tId from rfl,
     marshal_resultMsg, M.bind_ok, resultMsgWire_length]
  simp [show dropErr (writeChunkBasicHeader 0 2) = [0x02] from rfl,
        show dropErr (writeType0ChunkMessageHeader 0 81 20 0 2) = ([] : List Nat)
          from rfl]

/-- So does `writeAMF0FCPublishSuccess`. -/
theorem writeAMF0FCPublishSuccess_eq (tId : Nat) :
    writeAMF0FCPublishSuccess tId = .ok (0x02 :: resultMsgWire tId) := by
  unfold writeAMF0FCPublishSuccess
  rw [show writeAMF0FCPublishSuccessMsg tId = resultMsg tId from rfl,
     marshal_resultMsg, M.bind_ok, resultMsgWire_length]
  simp [show dropErr (writeChunkBasicHeader 0 2) = [0x02] from rfl,
        show dropErr (writeType0ChunkMessageHeader 0 81 20 0 2) = ([] : List Nat)
          from rfl]

/-- So does `writeAMF0ReleaseStreamSuccess`. -/
theorem writeAMF0ReleaseStreamSuccess_eq (tId : Nat) :
    writeAMF0ReleaseStreamSuccess tId = .ok (0x02 :: resultMsgWire tId) := by
  unfold writeAMF0ReleaseStreamSuccess
  rw [show writeAMF0ReleaseStreamSuccessMsg tId = resultMsg tId from rfl,
     marshal_resultMsg, M.bind_ok, resultMsgWire_length]
  simp [show dropErr (writeChunkBasicHeader 0 2) = [0x02] from rfl,
        show dropErr (writeType0ChunkMessageHeader 0 81 20 0 2) = ([] : List Nat)
          from rfl]

/-- So does `writeAMF0PublishSuccess`. -/
theorem writeAMF0PublishSuccess_eq (tId : Nat) :
    writeAMF0PublishSuccess tId = .ok (0x02 :: resultMsgWire tId) := by
  unfold writeAMF0PublishSuccess
  rw [show writeAMF0PublishSuccessMsg tId = resultMsg tId from rfl,
     marshal_resultMsg, M.bind_ok, resultMsgWire_length]
  simp [show dropErr (writeChunkBasicHeader 0 2) = [0x02] from rfl,
        show dropErr (writeType0ChunkMessageHeader 0 81 20 0 2) = ([] : List Nat)
          from rfl]

/-- So does `writeAMF0NetConnectionConnectSuccess`, with the constant
transaction id 1.0. -/
theorem writeAMF0NetConnectionConnectSuccess_eq :
    writeAMF0NetConnectionConnectSuccess = .ok (0x02 :: resultMsgWire float1Bits) := by
  unfold writeAMF0NetConnectionConnectSuccess
  rw [show writeAMF0NetConnectionConnectSuccessMsg = resultMsg float1Bits from rfl,
     marshal_resultMsg, M.bind_ok, resultMsgWire_length]
  simp [show dropErr (writeChunkBasicHeader 0 2) = [0x02] from rfl,
        show dropErr (writeType0ChunkMessageHeader 0 81 20 0 2) = ([] : List Nat)
          from rfl]

/-- Invert a successful bind. -/
theorem M.bind_eq_ok {a b : Type} {x : M a} {f : a → M b} {y : b}
    (h : x >>= f = .ok y) : ∃ v, x = .ok v ∧ f v = .ok y := by
  rcases x with e | v
  · rw [M.bind_err] at h
    exact absurd h (by simp)
  · exact ⟨v, rfl, h⟩

/-- The dispatch switch can only invoke the four `_result` writers. -/
theorem amf0CommandDispatch_calls (msgB : List Nat)
    (co : List WCall × List Nat) (h : amf0CommandDispatch msgB = .ok co)
    (t : WCall) (ht : t ∈ co.1) :
    t = .connectSuccess ∨ t = .fcPublishSuccess ∨
    t = .releaseStreamSuccess ∨ t = .createStreamSuccess := by
  unfold amf0CommandDispatch at h
  split at h
  · exact absurd h (by simp)
  · split at h
    · rw [show (Except.ok (([], []) : List WCall × List Nat) : M _) = .ok co ↔
          co = ([], []) from by constructor <;> (intro hh; simp_all)] at h
      subst h; simp at ht
    · split at h
      case _ cmd =>
        split at h
        · rw [show (Except.ok (([WCall.connectSuccess],
              dropErr writeAMF0NetConnectionConnectSuccess) :
                List WCall × List Nat) : M _) = .ok co ↔
              co = ([WCall.connectSuccess],
                dropErr writeAMF0NetConnectionConnectSuccess) from
              by constructor <;> (intro hh; simp_all)] at h
          subst h; simp at ht; simp [ht]
        · split at h
          · obtain ⟨f, -, h⟩ := M.bind_eq_ok h
            rw [show (Except.ok (([WCall.fcPublishSuccess],
                dropErr (writeAMF0FCPublishSuccess f)) :
                  List WCall × List Nat) : M _) = .ok co ↔
                co = ([WCall.fcPublishSuccess],
                  dropErr (writeAMF0FCPublishSuccess f)) from
                by constructor <;> (intro hh; simp_all)] at h
            subst h; simp at ht; simp [ht]
          · split at h
            · obtain ⟨f, -, h⟩ := M.bind_eq_ok h
              rw [show (Except.ok (([WCall.releaseStreamSuccess],
                  dropErr (writeAMF0ReleaseStreamSuccess f)) :
                    List WCall × List Nat) : M _) = .ok co ↔
                  co = ([WCall.releaseStreamSuccess],
                    dropErr (writeAMF0ReleaseStreamSuccess f)) from
                  by constructor <;> (intro hh; simp_all)] at h
              subst h; simp at ht; simp [ht]
            · split at h
              · obtain ⟨f, -, h⟩ := M.bind_eq_ok h
                rw [show (Except.ok (([WCall.createStreamSuccess],
                    dropErr (writeAMF0CreateStreamSuccess f)) :
                      List WCall × List Nat) : M _) = .ok co ↔
                    co = ([WCall.createStreamSuccess],
                      dropErr (writeAMF0CreateStreamSuccess f)) from
                    by constructor <;> (intro hh; simp_all)] at h
                subst h; simp at ht; simp [ht]
              · split at h
                · obtain ⟨f, -, h⟩ := M.bind_eq_ok h
                  rw [show (Except.ok (([WCall.createStreamSuccess],
                      dropErr (writeAMF0CreateStreamSuccess f)) :
                        List WCall × List Nat) : M _) = .ok co ↔
                      co = ([WCall.createStreamSuccess],
                        dropErr (writeAMF0CreateStreamSuccess f)) from
                      by constructor <;> (intro hh; simp_all)] at h
                  subst h; simp at ht; simp [ht]
                · rw [show (Except.ok (([], []) :
                      List WCall × List Nat) : M _) = .ok co ↔ co = ([], [])
                      from by constructor <;> (intro hh; simp_all)] at h
                  subst h; simp at ht
      · rw [show (Except.ok (([], []) : List WCall × List Nat) : M _) =
            .ok co ↔ co = ([], []) from
            by constructor <;> (intro hh; simp_all)] at h
        subst h; simp at ht

/-! # Claims -/

/-- **C1**  The claim says the AMF0 decoder never reads out of bounds and
in particular that the boolean case is safe when its marker is the final
input byte.  It is not: the guard `if (i + 1) > len(b)` still admits
`i + 1 = len(b)`, after which `b[i+1]` is an out-of-range read (a Go
runtime panic), so `AMF0Msg.UnmarshalBinary` panics on the one-byte input
`[0x01]`; the string case has the matching off-by-one (`[0x02, 0x00]`
passes `(i + 2) > len(b)` and then slices `b[i+1 : i+3]` out of range). -/
theorem amf0_unmarshal_boolean_marker_at_end_panics :
    AMF0Msg.UnmarshalBinary [0x01] = .error .panic ∧
    AMF0Msg.UnmarshalBinary [0x02, 0x00] = .error .panic :=
  ⟨rfl, rfl⟩

/-- **C2**  The claim (and the source's own comments) say the 2-byte
basic header decodes to `second byte + 64` and the 3-byte one to
`third·256 + second + 64`, adding 64 exactly once.  The code adds 64
inside the switch arm and then a second time in the trailing
`if basicHeaderLen == 2 || basicHeaderLen == 3`, and its 3-byte arm
never reads the second byte: `[0x00, 0x00]` decodes to id 128 (the
claim says 64) and `[0x01, 0x05, 0x02]` to `2·256 + 128 = 640` (the
claim says `2·256 + 5 + 64 = 581`).  The 1-byte form and the format
bits behave as claimed. -/
theorem receiveChunkBasicHeader_adds_64_twice :
    receiveChunkBasicHeader [0x00, 0x00] = .ok (⟨0, 128⟩, []) ∧
    receiveChunkBasicHeader [0x01, 0x05, 0x02] = .ok (⟨0, 640⟩, []) ∧
    receiveChunkBasicHeader [0x45] = .ok (⟨1, 5⟩, []) :=
  ⟨rfl, rfl, rfl⟩

/-- **C3**  The round-trip claim fails on a message holding an object
with one nested object: marshalling `[{"a": {}}]` yields the 11 bytes
below, but unmarshalling them errors, because after a nested object
`scanForAMF0ObjectEnd` advances `i = i + offset + 1` although `offset`
already counts the nested object's marker, overshooting the outer
object's end by one byte. -/
theorem amf0_roundtrip_nested_object_fails :
    AMF0Msg.MarshalBinary nestedObjMsg =
      .ok [0x03, 0x00, 0x01, 97, 0x03, 0x00, 0x00, 0x09, 0x00, 0x00, 0x09] ∧
    AMF0Msg.UnmarshalBinary
        [0x03, 0x00, 0x01, 97, 0x03, 0x00, 0x00, 0x09, 0x00, 0x00, 0x09] =
      .error (.err .keySizeBytes) := by
  refine ⟨?_, rfl⟩
  simp [AMF0Msg.MarshalBinary, marshalVal, AMF0Object.MarshalBinary,
        marshalProps, nestedObjMsg, be16, M.bind_ok, M.bind_err]

/-- **C4**  The claim says over-cap message lengths fail with a
protocol-limit error before any allocation and capped ones are buffered
bounded by the declaration.  The receive path contains no cap at all
(the source's own FIXME: "do not allocate memory based on a network
peer's demands. set a limit and obey it"): a header declaring the
maximum representable length 0xFFFFFF succeeds and the payload buffer
of exactly that peer-chosen size is allocated unconditionally — there is
no protocol-limit error path in the code. -/
theorem receiveChunk_no_message_size_cap :
    receiveChunk ConnSt.init hugeLenChunk =
      .ok ⟨⟨some 0, none, some 0xFFFFFF, some 8, some 1⟩,
           0xFFFFFF, [], [], []⟩ :=
  rfl

/-- **C5**  The claim says a 24-bit timestamp field of 0xFFFFFF makes
the decoder consume a 4-byte extended timestamp and never take 0xFFFFFF
literally.  The code stores 0xFFFFFF as the literal timestamp and leaves
the four following bytes (0xAB 0xCD 0xEF 0x01 here) unconsumed — the
extended timestamp is unimplemented (the source's "FIXME: handle
extended timestamp"). -/
theorem readType0MessageHeader_takes_0xFFFFFF_literally :
    readType0MessageHeader ConnSt.init extTsHeaderInput =
      .ok (⟨some 0xFFFFFF, none, some 5, some 8, some 1⟩,
           [0xAB, 0xCD, 0xEF, 0x01]) :=
  rfl

/-- **C9**  The claim says every id in [2, 65599] — including 65599 — is
accepted and encoded.  The writer's guard only rejects ids > 65599, but
its encoding switch requires `chunkStreamId < 65599` for the 3-byte
form, so 65599 falls through to the `default` branch the source marks
"This shouldn't be reachable" and returns the invalid-id usage error;
every other boundary behaves as claimed (2 and 63 in one byte, 64 and
319 in two, 320 and 65598 in three, minimum-length throughout). -/
theorem writeChunkBasicHeader_rejects_65599 :
    writeChunkBasicHeader 0 65599 = .error (.err .invalidCsid) ∧
    writeChunkBasicHeader 0 65598 = .ok [0x01, 0xFF, 0xFE] ∧
    writeChunkBasicHeader 0 2 = .ok [0x02] ∧
    writeChunkBasicHeader 0 63 = .ok [0x3F] ∧
    writeChunkBasicHeader 0 64 = .ok [0x00, 0x00] ∧
    writeChunkBasicHeader 0 319 = .ok [0x00, 0xFF] ∧
    writeChunkBasicHeader 0 320 = .ok [0x01, 0x01, 0x00] ∧
    writeChunkBasicHeader 0 1 = .error (.err .csidTooSmall) ∧
    writeChunkBasicHeader 0 65600 = .error (.err .csidTooLarge) :=
  ⟨rfl, rfl, rfl, rfl, rfl, rfl, rfl, rfl, rfl⟩

/-- **C6** (counterexample)  The claim says header-compression state is
kept per chunk stream id, so a format-1 chunk on chunk stream 3 inherits
only from the prior chunk on chunk stream 3.  Running the three
interleaved chunks (type 0 on cs 3 with message stream id 1 and
timestamp 10; type 0 on cs 4 with message stream id 2 and timestamp 100;
type 1 on cs 3 with delta 1): after the first chunk the state holds
message stream id 1, but the type-1 chunk on chunk stream 3 inherits
message stream id 2 and base timestamp 100 from the interleaved chunk
on chunk stream 4 — the single per-connection state was overwritten. -/
theorem receiveChunk_state_cross_stream_contamination :
    (receiveChunks 1 ConnSt.init interleavedChunks).map Prod.fst =
      .ok ⟨some 10, none, some 1, some 8, some 1⟩ ∧
    (receiveChunks 3 ConnSt.init interleavedChunks).map Prod.fst =
      .ok ⟨some 101, some 1, some 1, some 8, some 2⟩ :=
  ⟨rfl, rfl⟩

/-- **C6** (amended)  The connection keeps ONE set of prior-header
fields per direction, shared by every chunk stream: (1) `receiveChunk`
never consults the parsed chunk stream id — two inputs whose basic
headers parse to the same format and leave the same remaining bytes are
processed identically, whatever their chunk stream ids; (2) a format-1
header inherits the message stream id from that single shared state,
i.e. from the immediately preceding chunk on any chunk stream. -/
theorem receiveChunk_state_shared_across_chunk_streams :
    (∀ (s : ConnSt) (input₁ input₂ : List Nat)
        (bh₁ bh₂ : chunkBasicHeader) (rest : List Nat),
      receiveChunkBasicHeader input₁ = .ok (bh₁, rest) →
      receiveChunkBasicHeader input₂ = .ok (bh₂, rest) →
      bh₁.ChunkMessageHeaderFormat = bh₂.ChunkMessageHeaderFormat →
      receiveChunk s input₁ = receiveChunk s input₂) ∧
    (∀ (s : ConnSt) (input : List Nat) (r : ConnSt × List Nat),
      readType1MessageHeader s input = .ok r →
      r.1.prvIncMsgStrmId = s.prvIncMsgStrmId) := by
  constructor
  · intro s input₁ input₂ bh₁ bh₂ rest e₁ e₂ hf
    unfold receiveChunk
    rw [e₁, e₂]
    simp only [M.bind_ok]
    rw [hf]
  · intro s input r h
    unfold readType1MessageHeader at h
    split at h
    · exact absurd h (by simp)
    · exact absurd h (by simp)
    · split at h
      · exact absurd h (by simp)
      · injection h with h'
        subst h'
        rfl

/-- **C6** (witness)  The chunk-stream-id independence applied to the
one-byte basic headers for chunk streams 3 and 4 (same format 0), and
the inheritance fact applied to a concrete type-1 read. -/
theorem receiveChunk_state_shared_witness :
    receiveChunk ConnSt.init [0x03] = receiveChunk ConnSt.init [0x04] ∧
    ((({ prvIncMsgTs := some 11, prvIncMsgTsD := some 1, prvIncMsgLen := some 1,
         prvIncMsgTypId := some 8, prvIncMsgStrmId := some 1 } : ConnSt),
       ([] : List Nat)) : ConnSt × List Nat).1.prvIncMsgStrmId =
      ({ prvIncMsgTs := some 10, prvIncMsgTsD := none, prvIncMsgLen := some 1,
         prvIncMsgTypId := some 8, prvIncMsgStrmId := some 1 } : ConnSt).prvIncMsgStrmId :=
  ⟨receiveChunk_state_shared_across_chunk_streams.1 ConnSt.init
      [0x03] [0x04] ⟨0, 3⟩ ⟨0, 4⟩ [] rfl rfl rfl,
   receiveChunk_state_shared_across_chunk_streams.2
      { prvIncMsgTs := some 10, prvIncMsgTsD := none, prvIncMsgLen := some 1,
        prvIncMsgTypId := some 8, prvIncMsgStrmId := some 1 }
      [0, 0, 1, 0, 0, 1, 8] _ rfl⟩

/-- **C7**  The C2 acknowledgement check fails exactly when some byte in
positions [8, 1536) of C2 differs from the corresponding byte of the
server's 1528-byte S1 random block, and overwriting any byte in
positions [0, 8) never changes the check's outcome. -/
theorem receiveHandshake_ack_mismatch_iff (c2 s1Random : List Nat)
    (h2 : c2.length = 1536) (h1 : s1Random.length = 1528) :
    (receiveHandshakeC2AckFails c2 s1Random = true ↔
      ∃ i, 8 ≤ i ∧ i < 1536 ∧ c2.getD i 0 ≠ s1Random.getD (i - 8) 0) ∧
    ∀ j v, j < 8 →
      receiveHandshakeC2AckFails (c2.set j v) s1Random =
        receiveHandshakeC2AckFails c2 s1Random := by
  constructor
  · simp only [receiveHandshakeC2AckFails, decide_eq_true_eq]
    constructor
    · intro hne
      by_contra hall
      push_neg at hall
      apply hne
      apply List.ext_getElem?
      intro n
      rcases lt_or_ge n 1528 with hn | hn
      · have hc : 8 + n < c2.length := by omega
        have hs : n < s1Random.length := by omega
        have hd := hall (8 + n) (by omega) (by omega)
        rw [List.getD_eq_getElem?_getD, List.getD_eq_getElem?_getD,
            show 8 + n - 8 = n from by omega,
            List.getElem?_eq_getElem hc, List.getElem?_eq_getElem hs] at hd
        simp only [Option.getD_some] at hd
        rw [List.getElem?_drop, List.getElem?_eq_getElem hc,
            List.getElem?_eq_getElem hs, hd]
      · rw [List.getElem?_drop,
            List.getElem?_eq_none (by omega),
            List.getElem?_eq_none (by omega)]
    · rintro ⟨i, hi8, hi, hdiff⟩ heq
      apply hdiff
      have hq : (c2.drop 8)[i - 8]? = s1Random[i - 8]? := by rw [heq]
      rw [List.getElem?_drop, show 8 + (i - 8) = i from by omega] at hq
      rw [List.getD_eq_getElem?_getD, List.getD_eq_getElem?_getD, hq]
  · intro j v hj
    have hset : (c2.set j v).drop 8 = c2.drop 8 := by
      apply List.ext_getElem?
      intro n
      rw [List.getElem?_drop, List.getElem?_drop, List.getElem?_set,
          if_neg (by omega)]
    simp [receiveHandshakeC2AckFails, hset]

/-- **C7** (witness)  The theorem applied to the all-zero C2 and
all-zero S1 random block. -/
theorem receiveHandshake_ack_mismatch_iff_witness :
    (List.replicate 1536 0).length = 1536 ∧
    (List.replicate 1528 0).length = 1528 ∧
    ((receiveHandshakeC2AckFails (List.replicate 1536 0)
        (List.replicate 1528 0) = true ↔
      ∃ i, 8 ≤ i ∧ i < 1536 ∧
        (List.replicate 1536 0).getD i 0 ≠
          (List.replicate 1528 0).getD (i - 8) 0) ∧
    ∀ j v, j < 8 →
      receiveHandshakeC2AckFails ((List.replicate 1536 0).set j v)
          (List.replicate 1528 0) =
        receiveHandshakeC2AckFails (List.replicate 1536 0)
          (List.replicate 1528 0)) :=
  ⟨List.length_replicate 1536 0, List.length_replicate 1528 0,
   receiveHandshake_ack_mismatch_iff (List.replicate 1536 0)
     (List.replicate 1528 0) (List.length_replicate 1536 0)
     (List.length_replicate 1528 0)⟩

/-- **C8** (counterexample)  The claim says the server emits Window
Acknowledgement Size (type 5), Set Peer Bandwidth (type 6) and a Stream
Begin user-control message (type 4) before the first `_result`.
Processing a complete `connect` command chunk invokes exactly one
writer — the `_result` composer — and nothing else: the write trace is
`[connectSuccess]` and contains none of the three control writers (those
functions exist in the source but are never called). -/
theorem connect_reply_without_control_sequence :
    receiveChunk ConnSt.init connectChunk =
      .ok ⟨⟨some 0, none, some 19, some 20, some 0⟩, 19, [],
           [.connectSuccess], 0x02 :: resultMsgWire float1Bits⟩ ∧
    WCall.windowAck ∉ [WCall.connectSuccess] ∧
    WCall.setPeerBandwidth ∉ [WCall.connectSuccess] ∧
    WCall.startStream ∉ [WCall.connectSuccess] := by
  refine ⟨?_, by simp, by simp, by simp⟩
  have h1 : receiveChunk ConnSt.init connectChunk =
      amf0CommandDispatch connectCommandBytes >>= (fun co =>
        Except.ok ⟨⟨some 0, none, some 19, some 20, some 0⟩, 19, [],
                   co.1, co.2⟩) := rfl
  have hd0 : amf0CommandDispatch connectCommandBytes =
      .ok ([.connectSuccess], dropErr writeAMF0NetConnectionConnectSuccess) :=
    rfl
  have hdrop : dropErr writeAMF0NetConnectionConnectSuccess =
      0x02 :: resultMsgWire float1Bits := by
    rw [writeAMF0NetConnectionConnectSuccess_eq]; rfl
  have hd : amf0CommandDispatch connectCommandBytes =
      .ok ([.connectSuccess], 0x02 :: resultMsgWire float1Bits) := by
    rw [hd0, hdrop]
  rw [h1, hd, M.bind_ok]

/-- **C8** (amended)  The server never writes a Window Acknowledgement
Size, Set Peer Bandwidth or Stream Begin message: on no input does the
receive/dispatch path invoke any of the three control-message writers
(they are defined but have no call site); a recognized command elicits
only its `_result` writer. -/
theorem no_control_messages_ever_written (s : ConnSt) (input : List Nat) :
    WCall.windowAck ∉ callsOf (receiveChunk s input) ∧
    WCall.setPeerBandwidth ∉ callsOf (receiveChunk s input) ∧
    WCall.startStream ∉ callsOf (receiveChunk s input) := by
  have key : ∀ t, t ∈ callsOf (receiveChunk s input) →
      t = .connectSuccess ∨ t = .fcPublishSuccess ∨
      t = .releaseStreamSuccess ∨ t = .createStreamSuccess := by
    intro t ht
    rcases hr : receiveChunk s input with e | o
    · simp [callsOf, hr] at ht
    · rw [hr] at ht
      simp only [callsOf] at ht
      unfold receiveChunk at hr
      obtain ⟨p, hp, hr⟩ := M.bind_eq_ok hr
      obtain ⟨q, hq, hr⟩ := M.bind_eq_ok hr
      obtain ⟨l, hl, hr⟩ := M.bind_eq_ok hr
      obtain ⟨ty, hty, hr⟩ := M.bind_eq_ok hr
      split at hr
      · obtain ⟨co, hco, hr⟩ := M.bind_eq_ok hr
        injection hr with hr'
        subst hr'
        exact amf0CommandDispatch_calls _ _ hco t ht
      · injection hr with hr'
        subst hr'
        simp at ht
  refine ⟨?_, ?_, ?_⟩ <;>
    · intro h
      rcases key _ h with h' | h' | h' | h' <;> simp at h'

set_option maxRecDepth 16384 in
/-- **C10** (counterexample)  The claim says each `_result` is emitted
as a type-20 message on chunk stream 2 with message stream id 0.  The
writers do pass those parameters, but the message-header writer rejects
the combination (type 20 may not use the protocol-control chunk stream
2) and its error is discarded, so the emitted reply is the basic-header
byte 0x02 followed directly by the 81-byte AMF0 payload: the 11-byte
type-0 message header (timestamp 0, length 81, type 20, stream id 0)
appears nowhere in the output. -/
theorem connect_result_message_header_rejected :
    writeAMF0NetConnectionConnectSuccess =
      .ok (0x02 :: resultMsgWire float1Bits) ∧
    writeType0ChunkMessageHeader 0 81 20 0 2 = .error (.err .csidReserved) ∧
    ¬ resultType0Header <:+: 0x02 :: resultMsgWire float1Bits :=
  ⟨writeAMF0NetConnectionConnectSuccess_eq, rfl, by decide⟩

/-- **C10** (amended)  All five `_result` writers compose the same
message — `_result`, the echoed transaction id (the constant 1.0 for
`connect`), an empty properties object, and the one shared status object
`{level: "status", code: "NetConnection.Connect.Success"}` — and each
hands (type 20, message stream 0, chunk stream 2) to the
message-header writer, which rejects chunk stream 2 as reserved; the
discarded error leaves the emitted bytes as the basic-header byte
followed by the bare payload. -/
theorem result_writers_share_status_and_lose_header (tId : Nat) :
    writeAMF0PublishSuccessMsg tId = resultMsg tId ∧
    writeAMF0FCPublishSuccessMsg tId = resultMsg tId ∧
    writeAMF0CreateStreamSuccessMsg tId = resultMsg tId ∧
    writeAMF0ReleaseStreamSuccessMsg tId = resultMsg tId ∧
    writeAMF0NetConnectionConnectSuccessMsg = resultMsg float1Bits ∧
    (resultMsg tId).getD 3 .nullV =
      .obj (.cons levelKey (.str statusStr)
             (.cons codeKey (.str nccsStr) .nil)) ∧
    writeAMF0FCPublishSuccess tId = .ok (0x02 :: resultMsgWire tId) ∧
    writeAMF0ReleaseStreamSuccess tId = .ok (0x02 :: resultMsgWire tId) ∧
    writeAMF0CreateStreamSuccess tId = .ok (0x02 :: resultMsgWire tId) ∧
    writeAMF0PublishSuccess tId = .ok (0x02 :: resultMsgWire tId) ∧
    writeAMF0NetConnectionConnectSuccess =
      .ok (0x02 :: resultMsgWire float1Bits) ∧
    writeType0ChunkMessageHeader 0 (resultMsgWire tId).length 20 0 2 =
      .error (.err .csidReserved) :=
  ⟨rfl, rfl, rfl, rfl, rfl, rfl,
   writeAMF0FCPublishSuccess_eq tId, writeAMF0ReleaseStreamSuccess_eq tId,
   writeAMF0CreateStreamSuccess_eq tId, writeAMF0PublishSuccess_eq tId,
   writeAMF0NetConnectionConnectSuccess_eq,
   by rw [resultMsgWire_length]; rfl⟩

end RtmpTee
